import Mathlib

/-!
Shallow embedding of the my_ls directory-listing tool (src/main.rs) and
verification of its specification claims.

The Rust program classifies each raw directory entry into a `ListingEntry`
value, sorts the collection by name with a stable sort, and prints the
directory entries first, followed by all other entries.

Modelling conventions:
* Rust `String` values become Lean `String`; comparison of Rust strings is
  byte-lexicographic over UTF-8, which on valid UTF-8 strings coincides with
  the codepoint-lexicographic order used by the Lean `String` order.
* `u64` device ids become `Nat`; the source only masks and shifts them, so
  no overflow is possible and no explicit reduction mod 2 to the 64 is needed.
* Fallible platform calls (name decoding, file-type query, link resolution,
  metadata read, directory enumeration) become `Option`/`Except` fields of an
  abstract `DirEntry`/`Filesystem`, mirroring how `from_dentry` and `main`
  branch on `Result` values.
* `Vec::sort` is a stable sort by the `Ord` instance (which compares names);
  it is modelled by `List.insertionSort`, which is also stable and produces
  the same list as any stable sort for the same total preorder, and in
  addition evaluates by kernel reduction.
-/

namespace MyLs

/-! ### Icon constants (src/main.rs lines 7-19) -/

def ICON_ERROR : String := String.mk [Char.ofNat 0x2753, Char.ofNat 0xFE0E]

/-- Note: the source constant contains a trailing space character. -/
def ICON_FILE : String := String.mk [Char.ofNat 0x1F5CE, Char.ofNat 0xFE0E, Char.ofNat 0x20]

def ICON_DIRECTORY : String := String.mk [Char.ofNat 0x1F4C1, Char.ofNat 0xFE0E]

def ICON_SYMLINK : String := String.mk [Char.ofNat 0x1F517, Char.ofNat 0xFE0E]

def ICON_EMPTY_FILE : String := String.mk [Char.ofNat 0x2B55, Char.ofNat 0xFE0E]

def ICON_SOCKET : String := String.mk [Char.ofNat 0x1F50C, Char.ofNat 0xFE0E]

def ICON_PIPE : String := String.mk [Char.ofNat 0x1F6B0, Char.ofNat 0xFE0E]

def ICON_TEXT_FILE : String := String.mk [Char.ofNat 0x1F5D2, Char.ofNat 0xFE0E]

def ICON_CHAR_DEVICE : String := String.mk [Char.ofNat 0x1F5A8, Char.ofNat 0xFE0E]

def ICON_BLOCK_DEVICE : String := String.mk [Char.ofNat 0x1F4BF, Char.ofNat 0xFE0E]

def ICON_DISK : String := String.mk [Char.ofNat 0x1F5D4, Char.ofNat 0xFE0E]

def ICON_DEV_NULL : String := String.mk [Char.ofNat 0x1F6BD, Char.ofNat 0xFE0E]

def ICON_TTY : String := String.mk [Char.ofNat 0x1F4BB, Char.ofNat 0xFE0E]

/-! ### ListingEntry (src/main.rs lines 21-60) -/

/-- A single entry of the listing, one constructor per variant of the Rust
enum `ListingEntry`. -/
inductive ListingEntry where
  | Unknown (name : String) (icon : String)
  | Regular (name : String) (icon : String)
  | Directory (name : String) (icon : String)
  | Symlink (name : String) (target : String) (icon : String)
  | Pipe (name : String) (icon : String)
  | Socket (name : String) (icon : String)
  | CharDevice (name : String) (dev_id : Nat) (icon : String)
  | BlockDevice (name : String) (dev_id : Nat) (icon : String)
deriving DecidableEq, Repr

namespace ListingEntry

/-- `ListingEntry::get_name` (lines 64-75). -/
def get_name : ListingEntry → String
  | Unknown name _ => name
  | Regular name _ => name
  | Directory name _ => name
  | Symlink name _ _ => name
  | Pipe name _ => name
  | Socket name _ => name
  | CharDevice name _ _ => name
  | BlockDevice name _ _ => name

/-- `ListingEntry::get_icon` (lines 77-88). -/
def get_icon : ListingEntry → String
  | Unknown _ icon => icon
  | Regular _ icon => icon
  | Directory _ icon => icon
  | Symlink _ _ icon => icon
  | Pipe _ icon => icon
  | Socket _ icon => icon
  | CharDevice _ _ icon => icon
  | BlockDevice _ _ icon => icon

/-- `ListingEntry::is_directory` (lines 90-95). -/
def is_directory : ListingEntry → Bool
  | Directory _ _ => true
  | _ => false

/-- `ListingEntry::new_regular` (lines 97-102). -/
def new_regular (name : String) : ListingEntry :=
  Regular name ICON_FILE

/-- `ListingEntry::new_dir` (lines 104-109). -/
def new_dir (name : String) : ListingEntry :=
  Directory name ICON_DIRECTORY

/-- `ListingEntry::new_symlink` (lines 111-117). -/
def new_symlink (name : String) (target : String) : ListingEntry :=
  Symlink name target ICON_SYMLINK

/-- `ListingEntry::new_unknown` (lines 119-124). -/
def new_unknown (name : String) : ListingEntry :=
  Unknown name ICON_ERROR

/-- `ListingEntry::new_pipe` (lines 126-131). -/
def new_pipe (name : String) : ListingEntry :=
  Pipe name ICON_PIPE

/-- `ListingEntry::new_char_device` (lines 133-157): the icon is special-cased
from the major and minor fields masked out of `dev_id`. -/
def new_char_device (name : String) (dev_id : Nat) : ListingEntry :=
  let dev_major := (dev_id &&& 0x000000000000ff00) >>> 8
  let dev_minor := dev_id &&& 0x00000000000000ff
  let icon :=
    if dev_major = 1 ∧ dev_minor = 3 then ICON_DEV_NULL
    else if dev_major = 4 then ICON_TTY
    else if dev_major = 5 ∧ (dev_minor = 0 ∨ dev_minor = 1) then ICON_TTY
    else if dev_major = 241 then ICON_DISK
    else ICON_CHAR_DEVICE
  CharDevice name dev_id icon

/-- `ListingEntry::new_block_device` (lines 159-165). -/
def new_block_device (name : String) (dev_id : Nat) : ListingEntry :=
  BlockDevice name dev_id ICON_BLOCK_DEVICE

/-- `ListingEntry::new_socket` (lines 167-172). -/
def new_socket (name : String) : ListingEntry :=
  Socket name ICON_SOCKET

end ListingEntry

/-- Result of the `std::fs::FileType` probes used by `from_dentry`. A real
file type satisfies exactly one of these predicates, but the embedding keeps
all six results so that the branch order of the source is observable. -/
structure FileType where
  is_dir : Bool
  is_symlink : Bool
  is_fifo : Bool
  is_char_device : Bool
  is_block_device : Bool
  is_socket : Bool
deriving DecidableEq, Repr

/-- Abstract raw directory entry: the outcomes of the four fallible platform
calls that `ListingEntry::from_dentry` performs.
* `name_decode`: `dentry.file_name().into_string()`; `none` models `Err`
  (a name that is not valid text).
* `file_type`: `dentry.file_type()`; `none` models `Err`.
* `read_link`: `fs::read_link(dentry.path())` composed with `to_str()`:
  `none` models a failed resolution, `some none` a resolved path that is not
  representable as text, `some (some t)` a resolved textual target `t`.
* `metadata_rdev`: `dentry.metadata()` projected to `rdev()`; `none` models
  `Err`. -/
structure DirEntry where
  name_decode : Option String
  file_type : Option FileType
  read_link : Option (Option String)
  metadata_rdev : Option Nat
deriving DecidableEq, Repr

namespace ListingEntry

/-- `ListingEntry::from_dentry` (lines 174-240). -/
def from_dentry (dentry : DirEntry) : ListingEntry :=
  match dentry.name_decode with
  | none => new_unknown "???"
  | some name =>
    match dentry.file_type with
    | none => new_unknown name
    | some ft =>
      if ft.is_dir then new_dir name
      else if ft.is_symlink then
        match dentry.read_link with
        | none => new_symlink name "???"
        | some none => new_symlink name "???"
        | some (some target) => new_symlink name target
      else if ft.is_fifo then new_pipe name
      else if ft.is_char_device then
        match dentry.metadata_rdev with
        | none => new_char_device name 0
        | some dev_id => new_char_device name dev_id
      else if ft.is_block_device then
        match dentry.metadata_rdev with
        | none => new_block_device name 0
        | some dev_id => new_block_device name dev_id
      else if ft.is_socket then new_socket name
      else new_regular name

end ListingEntry

/-! ### Ordering and equality (src/main.rs lines 22, 243-253) -/

/-- The Rust `Ord` implementation (lines 249-253): compare by name only.
`str_cmp` models `cmp` on Rust strings through the linear order on `String`. -/
def str_cmp (a b : String) : Ordering :=
  if a < b then Ordering.lt else if a = b then Ordering.eq else Ordering.gt

/-- `ListingEntry::cmp` (lines 249-253). -/
def ListingEntry.cmp (a b : ListingEntry) : Ordering :=
  str_cmp a.get_name b.get_name

/-- The derived `PartialEq`/`Eq` of the Rust enum (line 22): structural
equality, comparing the variant tag and every field. -/
def rust_eq : ListingEntry → ListingEntry → Bool
  | .Unknown n1 i1, .Unknown n2 i2 => n1 == n2 && i1 == i2
  | .Regular n1 i1, .Regular n2 i2 => n1 == n2 && i1 == i2
  | .Directory n1 i1, .Directory n2 i2 => n1 == n2 && i1 == i2
  | .Symlink n1 t1 i1, .Symlink n2 t2 i2 => n1 == n2 && t1 == t2 && i1 == i2
  | .Pipe n1 i1, .Pipe n2 i2 => n1 == n2 && i1 == i2
  | .Socket n1 i1, .Socket n2 i2 => n1 == n2 && i1 == i2
  | .CharDevice n1 d1 i1, .CharDevice n2 d2 i2 => n1 == n2 && d1 == d2 && i1 == i2
  | .BlockDevice n1 d1 i1, .BlockDevice n2 d2 i2 => n1 == n2 && d1 == d2 && i1 == i2
  | _, _ => false

/-! ### Rendering and main (src/main.rs lines 255-304) -/

/-- The sort key used by `listing.sort()`: the `Ord` instance compares names,
so the corresponding non-strict order is comparison of names. -/
def entry_le (a b : ListingEntry) : Prop := a.get_name ≤ b.get_name

instance : DecidableRel entry_le := fun a b =>
  inferInstanceAs (Decidable (a.get_name ≤ b.get_name))

instance : IsTotal ListingEntry entry_le := ⟨fun a b => le_total a.get_name b.get_name⟩

instance : IsTrans ListingEntry entry_le := ⟨fun _ _ _ h1 h2 => le_trans h1 h2⟩

/-- `listing.sort()` (line 281): a stable sort by the `Ord` instance,
modelled by the stable `insertionSort`. -/
def sort_listing (l : List ListingEntry) : List ListingEntry :=
  l.insertionSort entry_le

/-- The line printed for a directory entry in the first output pass
(line 286): `println!("{} {}", l.get_icon(), l.get_name())`. -/
def line_plain (e : ListingEntry) : String :=
  e.get_icon ++ " " ++ e.get_name

/-- The line printed for a non-directory entry in the second output pass
(lines 291-301): symlinks additionally show `-> target`. -/
def line_for (e : ListingEntry) : String :=
  match e with
  | .Symlink name target icon => icon ++ " " ++ name ++ " -> " ++ target
  | _ => e.get_icon ++ " " ++ e.get_name

/-- The two printing passes of `main` (lines 281-301): sort, print the
directory entries, then print everything else. Each output line is one list
element. -/
def render (listing : List ListingEntry) : List String :=
  let sorted := sort_listing listing
  (sorted.filter (fun e => e.is_directory)).map line_plain
    ++ (sorted.filter (fun e => !e.is_directory)).map line_for

/-- The enumeration loop of `main` (lines 269-279): each raw `read_dir` item
is either `Ok(dentry)`, classified by `from_dentry`, or `Err`, replaced by
the `Unknown "???"` placeholder. -/
def build_listing (raws : List (Option DirEntry)) : List ListingEntry :=
  raws.map fun r =>
    match r with
    | some dentry => ListingEntry.from_dentry dentry
    | none => ListingEntry.new_unknown "???"

/-- The observable outcome of one program invocation. -/
structure ProgResult where
  stdout : List String
  stderr : List String
  exit_code : Nat
deriving DecidableEq, Repr

/-- The filesystem as seen by `main`: `fs::read_dir` either fails with a
system error description or yields the raw entry sequence (already excluding
the `.` and `..` entries, per platform `read_dir` semantics). -/
structure Filesystem where
  read_dir : String → Except String (List (Option DirEntry))

/-- A single apostrophe character, as used in the error message. -/
def squote : String := String.mk [Char.ofNat 0x27]

/-- Argument selection of `main` (lines 256-260): `argv` includes the
program name at index 0; the target is `argv[1]` when present, else `"."`. -/
def query_of (argv : List String) : String :=
  argv.getD 1 "."

/-- `main` (lines 255-304): open the directory; on failure print the error
line to the error stream and exit with status 1; on success classify, sort
and print. -/
def run_program (argv : List String) (fs : Filesystem) : ProgResult :=
  let query := query_of argv
  match fs.read_dir query with
  | .error err =>
      { stdout := []
        stderr := ["Could not open " ++ squote ++ query ++ squote ++ ": " ++ err]
        exit_code := 1 }
  | .ok raws =>
      { stdout := render (build_listing raws)
        stderr := []
        exit_code := 0 }

/-! ### Helper lemmas -/

/-- The mask `0xff` extracts the low 8 bits, i.e. the value mod `2 ^ 8`. -/
theorem and_ff (d : Nat) : d &&& 0x00000000000000ff = d % 2 ^ 8 := by
  have h := Nat.and_pow_two_sub_one_eq_mod d 8
  norm_num at h ⊢
  exact h

/-- Masking with `0xff00` and shifting right by 8 extracts bits 8 to 15,
i.e. the value divided by `2 ^ 8`, mod `2 ^ 8`. -/
theorem and_ff00_shr (d : Nat) : (d &&& 0x000000000000ff00) >>> 8 = d / 2 ^ 8 % 2 ^ 8 := by
  have h0 : (0x000000000000ff00 : Nat) = (2 ^ 8 - 1) <<< 8 := by
    norm_num [Nat.shiftLeft_eq]
  have h1 : d / 2 ^ 8 = d >>> 8 := (Nat.shiftRight_eq_div_pow d 8).symm
  rw [h0, h1]
  apply Nat.eq_of_testBit_eq
  intro i
  rw [Nat.testBit_shiftRight, Nat.testBit_and, Nat.testBit_shiftLeft,
    Nat.testBit_mod_two_pow, Nat.testBit_shiftRight]
  have h2 : 8 + i - 8 = i := by omega
  have h3 : decide (8 + i ≥ 8) = true := by simp
  rw [h2, h3, Nat.testBit_two_pow_sub_one]
  cases h4 : Nat.testBit d (8 + i) <;> cases h5 : decide (i < 8) <;> simp [h4, h5]

/-- The icon table of the spec, with the major field written as bits 8 to 15
and the minor field as bits 0 to 7 of the device id. -/
def char_icon (major minor : Nat) : String :=
  if major = 1 ∧ minor = 3 then ICON_DEV_NULL
  else if major = 4 then ICON_TTY
  else if major = 5 ∧ (minor = 0 ∨ minor = 1) then ICON_TTY
  else if major = 241 then ICON_DISK
  else ICON_CHAR_DEVICE

/-- The icon computed by `new_char_device` is the spec table applied to the
major field (bits 8 to 15) and the minor field (bits 0 to 7). -/
theorem new_char_device_icon (n : String) (d : Nat) :
    (ListingEntry.new_char_device n d).get_icon = char_icon (d / 2 ^ 8 % 2 ^ 8) (d % 2 ^ 8) := by
  rw [ListingEntry.new_char_device, char_icon]
  rw [and_ff00_shr, and_ff]
  rfl

/-! ### Claims -/

/-- C1: for every CharDevice entry, the icon is selected from `device_id` by
extracting major = bits 8 to 15 and minor = bits 0 to 7 and applying exactly
the table: major 1 with minor 3 gives the null-device icon; major 4 with any
minor gives the terminal icon; major 5 with minor 0 or 1 gives the terminal
icon; major 241 with any minor gives the disk icon; every other combination
gives the generic character-device icon (`char_icon` is that table
verbatim). -/
theorem c1_char_device_icon_table (n : String) (d : Nat) :
    (ListingEntry.new_char_device n d).get_icon = char_icon (d / 2 ^ 8 % 2 ^ 8) (d % 2 ^ 8) :=
  new_char_device_icon n d

/-- C9: the CharDevice icon depends only on the low 16 bits of the device
id: two device ids congruent mod `2 ^ 16` give the same icon. -/
theorem c9_icon_low16 (n : String) (d1 d2 : Nat) (h : d1 % 2 ^ 16 = d2 % 2 ^ 16) :
    (ListingEntry.new_char_device n d1).get_icon
      = (ListingEntry.new_char_device n d2).get_icon := by
  rw [new_char_device_icon, new_char_device_icon]
  have h1 : d1 / 2 ^ 8 % 2 ^ 8 = d2 / 2 ^ 8 % 2 ^ 8 := by omega
  have h2 : d1 % 2 ^ 8 = d2 % 2 ^ 8 := by omega
  rw [h1, h2]

/-- Witness for C9 at the null-device id 0x0103 and the same id with extra
high bits set. -/
theorem c9_icon_low16_witness :
    (ListingEntry.new_char_device "null" 0x0103).get_icon
      = (ListingEntry.new_char_device "null" 0xA50103).get_icon :=
  c9_icon_low16 "null" 0x0103 0xA50103 (by norm_num)

/-- C7 counterexample: the claim that equality is determined solely by the
name fails. `new_regular "a"` and `new_dir "a"` have equal names, so the
`Ord` comparison returns `eq`, yet the derived structural equality of the
enum distinguishes them (different variant tags), so they do not compare
equal. -/
theorem c7_counterexample :
    (ListingEntry.new_regular "a").cmp (ListingEntry.new_dir "a") = Ordering.eq ∧
    rust_eq (ListingEntry.new_regular "a") (ListingEntry.new_dir "a") = false := by
  constructor
  · rw [ListingEntry.cmp, str_cmp]
    simp only [ListingEntry.new_regular, ListingEntry.new_dir, ListingEntry.get_name]
    rw [if_neg (lt_irrefl _)]
    simp
  · rfl

/-- C7 amended: the ordering comparison is determined solely by the name
field (it returns `eq` exactly when the names are equal), but the equality
relation is the derived structural one: two entries are equal exactly when
they agree on the variant tag and on every field, so equal names alone do
not make two entries equal. -/
theorem c7_order_by_name_eq_structural (a b : ListingEntry) :
    (a.cmp b = Ordering.eq ↔ a.get_name = b.get_name) ∧
    (rust_eq a b = true ↔ a = b) := by
  constructor
  · rw [ListingEntry.cmp, str_cmp]
    split_ifs with h1 h2
    · constructor
      · intro h; exact h.elim
      · intro h; exact absurd h (ne_of_lt h1)
    · constructor
      · intro _; exact h2
      · intro _; rfl
    · constructor
      · intro h; exact h.elim
      · intro h; exact absurd h h2
  · cases a <;> cases b <;> simp [rust_eq, and_assoc]

/-- Witness for C7 amended: two concrete regular entries with the same name
compare `eq`, and a concrete entry is structurally equal to itself. -/
theorem c7_order_by_name_eq_structural_witness :
    ((ListingEntry.new_regular "a").cmp (ListingEntry.new_regular "a") = Ordering.eq) ∧
    (rust_eq (ListingEntry.new_regular "a") (ListingEntry.new_regular "a") = true) :=
  ⟨(c7_order_by_name_eq_structural (ListingEntry.new_regular "a")
      (ListingEntry.new_regular "a")).1.mpr rfl,
   (c7_order_by_name_eq_structural (ListingEntry.new_regular "a")
      (ListingEntry.new_regular "a")).2.mpr rfl⟩

/-- C4: `from_dentry` is total: it returns exactly one `ListingEntry` for
every raw entry; if name decoding fails it returns `Unknown "???"`
regardless of every other probe result (no further probing), and if the
file-type query fails it returns `Unknown name`. -/
theorem c4_classify_total (d : DirEntry) :
    (∃! e : ListingEntry, ListingEntry.from_dentry d = e) ∧
    (d.name_decode = none → ListingEntry.from_dentry d = ListingEntry.new_unknown "???") ∧
    (∀ name, d.name_decode = some name → d.file_type = none →
      ListingEntry.from_dentry d = ListingEntry.new_unknown name) := by
  refine ⟨⟨ListingEntry.from_dentry d, rfl, fun y hy => hy.symm⟩, ?_, ?_⟩
  · intro h
    simp [ListingEntry.from_dentry, h]
  · intro name h1 h2
    simp [ListingEntry.from_dentry, h1, h2]

/-- Witness for C4: a raw entry whose name does not decode classifies as
`Unknown "???"` whatever its other fields hold, and one whose file-type
query fails classifies as `Unknown` with the decoded name. -/
theorem c4_classify_total_witness :
    ListingEntry.from_dentry ⟨none, some ⟨true, true, true, true, true, true⟩,
        some (some "t"), some 7⟩ = ListingEntry.new_unknown "???" ∧
    ListingEntry.from_dentry ⟨some "f", none, none, none⟩
      = ListingEntry.new_unknown "f" :=
  ⟨(c4_classify_total ⟨none, some ⟨true, true, true, true, true, true⟩,
      some (some "t"), some 7⟩).2.1 rfl,
   (c4_classify_total ⟨some "f", none, none, none⟩).2.2 "f" rfl rfl⟩

/-- C5: classification branches on the probed type in the precedence
Directory, Symlink, Pipe, CharDevice, BlockDevice, Socket, with everything
else mapped to Regular, first match wins; for a symlink the result is a
`Symlink` entry built only from the link-resolution outcome (the link is
never followed to classify its referent), with target `"???"` when
resolution fails or the resolved path is not text; for char and block
devices a metadata-read failure defaults the device id to 0. -/
theorem c5_branch_precedence (d : DirEntry) (name : String) (ft : FileType)
    (hn : d.name_decode = some name) (hf : d.file_type = some ft) :
    (ft.is_dir = true → ListingEntry.from_dentry d = ListingEntry.new_dir name) ∧
    (ft.is_dir = false → ft.is_symlink = true →
      ((d.read_link = none →
          ListingEntry.from_dentry d = ListingEntry.new_symlink name "???") ∧
       (d.read_link = some none →
          ListingEntry.from_dentry d = ListingEntry.new_symlink name "???") ∧
       (∀ t, d.read_link = some (some t) →
          ListingEntry.from_dentry d = ListingEntry.new_symlink name t))) ∧
    (ft.is_dir = false → ft.is_symlink = false → ft.is_fifo = true →
      ListingEntry.from_dentry d = ListingEntry.new_pipe name) ∧
    (ft.is_dir = false → ft.is_symlink = false → ft.is_fifo = false →
      ft.is_char_device = true →
      ((d.metadata_rdev = none →
          ListingEntry.from_dentry d = ListingEntry.new_char_device name 0) ∧
       (∀ i, d.metadata_rdev = some i →
          ListingEntry.from_dentry d = ListingEntry.new_char_device name i))) ∧
    (ft.is_dir = false → ft.is_symlink = false → ft.is_fifo = false →
      ft.is_char_device = false → ft.is_block_device = true →
      ((d.metadata_rdev = none →
          ListingEntry.from_dentry d = ListingEntry.new_block_device name 0) ∧
       (∀ i, d.metadata_rdev = some i →
          ListingEntry.from_dentry d = ListingEntry.new_block_device name i))) ∧
    (ft.is_dir = false → ft.is_symlink = false → ft.is_fifo = false →
      ft.is_char_device = false → ft.is_block_device = false → ft.is_socket = true →
      ListingEntry.from_dentry d = ListingEntry.new_socket name) ∧
    (ft.is_dir = false → ft.is_symlink = false → ft.is_fifo = false →
      ft.is_char_device = false → ft.is_block_device = false → ft.is_socket = false →
      ListingEntry.from_dentry d = ListingEntry.new_regular name) := by
  refine ⟨?_, ?_, ?_, ?_, ?_, ?_, ?_⟩
  · intro h1
    simp [ListingEntry.from_dentry, hn, hf, h1]
  · intro h1 h2
    refine ⟨?_, ?_, ?_⟩
    · intro hl
      simp [ListingEntry.from_dentry, hn, hf, h1, h2, hl]
    · intro hl
      simp [ListingEntry.from_dentry, hn, hf, h1, h2, hl]
    · intro t hl
      simp [ListingEntry.from_dentry, hn, hf, h1, h2, hl]
  · intro h1 h2 h3
    simp [ListingEntry.from_dentry, hn, hf, h1, h2, h3]
  · intro h1 h2 h3 h4
    refine ⟨?_, ?_⟩
    · intro hm
      simp [ListingEntry.from_dentry, hn, hf, h1, h2, h3, h4, hm]
    · intro i hm
      simp [ListingEntry.from_dentry, hn, hf, h1, h2, h3, h4, hm]
  · intro h1 h2 h3 h4 h5
    refine ⟨?_, ?_⟩
    · intro hm
      simp [ListingEntry.from_dentry, hn, hf, h1, h2, h3, h4, h5, hm]
    · intro i hm
      simp [ListingEntry.from_dentry, hn, hf, h1, h2, h3, h4, h5, hm]
  · intro h1 h2 h3 h4 h5 h6
    simp [ListingEntry.from_dentry, hn, hf, h1, h2, h3, h4, h5, h6]
  · intro h1 h2 h3 h4 h5 h6
    simp [ListingEntry.from_dentry, hn, hf, h1, h2, h3, h4, h5, h6]

/-- Witness for C5: a raw entry whose file type reports every probe true is
classified as a directory — the first branch wins over all later ones. -/
theorem c5_branch_precedence_witness :
    ListingEntry.from_dentry ⟨some "d", some ⟨true, true, true, true, true, true⟩,
        some (some "t"), some 7⟩ = ListingEntry.new_dir "d" :=
  (c5_branch_precedence ⟨some "d", some ⟨true, true, true, true, true, true⟩,
      some (some "t"), some 7⟩ "d" ⟨true, true, true, true, true, true⟩ rfl rfl).1 rfl

/-- C2: the rendered output consists of two blocks: a block of lines for
directory entries followed by a block of lines for all non-directory
entries, regardless of name, and within each block the entries appear in
ascending lexicographic order by name (`entry_le`). The two blocks together
are a permutation of the input collection. -/
theorem c2_two_blocks_sorted (entries : List ListingEntry) :
    ∃ ds os : List ListingEntry,
      (∀ e ∈ ds, e.is_directory = true) ∧
      (∀ e ∈ os, e.is_directory = false) ∧
      List.Sorted entry_le ds ∧
      List.Sorted entry_le os ∧
      List.Perm (ds ++ os) entries ∧
      render entries = ds.map line_plain ++ os.map line_for := by
  refine ⟨(sort_listing entries).filter (fun e => e.is_directory),
          (sort_listing entries).filter (fun e => !e.is_directory),
          ?_, ?_, ?_, ?_, ?_, rfl⟩
  · intro e he
    exact (List.mem_filter.mp he).2
  · intro e he
    have h := (List.mem_filter.mp he).2
    simpa using h
  · exact List.Pairwise.filter _ (List.sorted_insertionSort entry_le entries)
  · exact List.Pairwise.filter _ (List.sorted_insertionSort entry_le entries)
  · exact (List.filter_append_perm _ _).trans (List.perm_insertionSort entry_le entries)

/-- Every entry of the directory block prints the same line in both passes:
on `Directory` entries `line_plain` and `line_for` agree. -/
theorem line_plain_eq_line_for_of_directory (e : ListingEntry)
    (h : e.is_directory = true) : line_plain e = line_for e := by
  cases e <;> simp_all [ListingEntry.is_directory, line_plain, line_for]

/-- C3: rendering a directory with N raw entries produces exactly N output
lines; moreover the lines are a permutation of one formatted line per
classified entry, so every entry (including the synthesized `Unknown "???"`
placeholders for per-entry enumeration failures) is printed exactly once. -/
theorem c3_entry_count (raws : List (Option DirEntry)) :
    (render (build_listing raws)).length = raws.length ∧
    List.Perm (render (build_listing raws)) ((build_listing raws).map line_for) := by
  have hsort : List.Perm (sort_listing (build_listing raws)) (build_listing raws) :=
    List.perm_insertionSort entry_le _
  have hmapeq : ((sort_listing (build_listing raws)).filter
      (fun e => e.is_directory)).map line_plain
      = ((sort_listing (build_listing raws)).filter
      (fun e => e.is_directory)).map line_for := by
    apply List.map_congr_left
    intro e he
    exact line_plain_eq_line_for_of_directory e (List.mem_filter.mp he).2
  have hperm : List.Perm (render (build_listing raws))
      ((build_listing raws).map line_for) := by
    rw [render, hmapeq, ← List.map_append]
    exact ((List.filter_append_perm _ _).map line_for).trans (hsort.map line_for)
  refine ⟨?_, hperm⟩
  rw [hperm.length_eq, List.length_map, build_listing, List.length_map]

/-- C6: every output line is exactly the icon of some input entry, one
space, and its name — and for a `Symlink` additionally one space, the
literal `->`, one space, and the target. -/
theorem c6_line_format (entries : List ListingEntry) (line : String)
    (h : line ∈ render entries) :
    ∃ e ∈ entries,
      line = e.get_icon ++ " " ++ e.get_name ++
        (match e with
         | .Symlink _ target _ => " -> " ++ target
         | _ => "") := by
  rw [render] at h
  rcases List.mem_append.mp h with h1 | h1
  · rcases List.mem_map.mp h1 with ⟨e, he, rfl⟩
    have hmem : e ∈ entries :=
      (List.perm_insertionSort entry_le entries).subset (List.mem_filter.mp he).1
    have hdir := (List.mem_filter.mp he).2
    refine ⟨e, hmem, ?_⟩
    cases e <;> simp_all [ListingEntry.is_directory, line_plain,
      ListingEntry.get_icon, ListingEntry.get_name]
  · rcases List.mem_map.mp h1 with ⟨e, he, rfl⟩
    have hmem : e ∈ entries :=
      (List.perm_insertionSort entry_le entries).subset (List.mem_filter.mp he).1
    refine ⟨e, hmem, ?_⟩
    cases e <;> simp [line_for, ListingEntry.get_icon, ListingEntry.get_name,
      String.append_assoc]

/-- Witness for C6 on a one-entry collection holding a symlink: the single
output line decomposes as icon, space, name, and the arrow plus target. -/
theorem c6_line_format_witness :
    ∃ e ∈ [ListingEntry.new_symlink "a" "b"],
      (ICON_SYMLINK ++ " " ++ "a" ++ " -> " ++ "b")
        = e.get_icon ++ " " ++ e.get_name ++
          (match e with
           | .Symlink _ target _ => " -> " ++ target
           | _ => "") :=
  c6_line_format [ListingEntry.new_symlink "a" "b"]
    (ICON_SYMLINK ++ " " ++ "a" ++ " -> " ++ "b") (List.Mem.head _)

/-- C8: when the target path cannot be opened as a directory the program
writes the single error line `Could not open <squote><path><squote>: <err>`
to the error stream, exits with status 1, and writes nothing to standard
output; when the directory opens, the run is not fatal: the error stream is
empty and the exit status is 0. -/
theorem c8_fatal_open_error (argv : List String) (fs : Filesystem) :
    (∀ err, fs.read_dir (query_of argv) = Except.error err →
      run_program argv fs =
        { stdout := []
          stderr := ["Could not open " ++ squote ++ query_of argv ++ squote ++ ": " ++ err]
          exit_code := 1 }) ∧
    (∀ raws, fs.read_dir (query_of argv) = Except.ok raws →
      (run_program argv fs).stderr = [] ∧ (run_program argv fs).exit_code = 0) := by
  constructor
  · intro err h
    simp [run_program, h]
  · intro raws h
    simp [run_program, h]

/-- Witness for C8: a filesystem on which every open fails produces the
error line, status 1, and an empty standard output. -/
theorem c8_fatal_open_error_witness :
    run_program ["my_ls", "/nope"] ⟨fun _ => Except.error "boom"⟩ =
      { stdout := []
        stderr := ["Could not open " ++ squote ++ "/nope" ++ squote ++ ": " ++ "boom"]
        exit_code := 1 } :=
  (c8_fatal_open_error ["my_ls", "/nope"] ⟨fun _ => Except.error "boom"⟩).1 "boom" rfl

/-- C10: every command-line argument after the first is ignored: the whole
observable outcome (directory opened, output produced, exit status) with
extra arguments equals the outcome with only the first argument (argv index
0 is the program name). -/
theorem c10_extra_args_ignored (prog a : String) (rest : List String) (fs : Filesystem) :
    run_program (prog :: a :: rest) fs = run_program [prog, a] fs := rfl

end MyLs
